import Mathlib

/-!
Verification development for the DR planning engine of the Energy Dashboard
repository (`backend/app/agents/planner.py`, strategy enum from
`backend/app/models/plan.py`).

Modelling conventions:
* MW quantities, prices and clock values are rationals (`ℚ`); clock instants
  are given in epoch seconds, hours-of-day as naturals.
* Python `round(x, n)` is modelled by rounding `x * 10^n` to the nearest
  integer (`round2`, `round3` below).
* JSON dict records become structures; optional fields (read with
  `dict.get(key, default)`) become `Option` fields read with `Option.getD`.
* The result of `_load_ercot_data` is either a snapshot/forecast pair or the
  error record the function builds when the data files are missing; indexing
  the error record with `["snapshot"]` raises `KeyError`, modelled by
  `Except.error`.
* The clock (`datetime.now(timezone.utc)`) is passed in explicitly
  (`nowSec`), as is the window start both as an instant (`windowStartSec`)
  and as hours-of-day (`windowStartHour`, `windowEndHour`).
-/

namespace DRPlanner

/-- The strategy enum `DRStrategy` from `app/models/plan.py`. -/
inductive DRStrategy where
  | cost_minimize
  | reliability
  | balanced
  | emergency
  deriving DecidableEq

/-- A grid snapshot record as read from `current_snapshot.json`; the three
fields the planner reads, each optional since the code accesses them with
`snapshot.get(key, default)`. -/
structure GridSnapshot where
  system_load_mw : Option ℚ
  price_per_mwh : Option ℚ
  reserves_mw : Option ℚ
  deriving DecidableEq

/-- A grid forecast record as read from `forecast_24h.json`; fields read with
`forecast.get(key, default)`. -/
structure GridForecast where
  peak_load_mw : Option ℚ
  peak_hour : Option ℕ
  deriving DecidableEq

/-- Result of `_load_ercot_data`: either the snapshot/forecast pair or the
error record `{"error": ..., "note": ...}` built when the data files are
missing. -/
inductive ErcotData where
  | ok (snapshot : GridSnapshot) (forecast : GridForecast)
  | error (message note : String)
  deriving DecidableEq

/-- A cohort record from `cohorts.json`, restricted to the fields
`_score_cohorts` / `_allocate_mw` read. -/
structure Cohort where
  id : String
  name : String
  segment : String
  num_accounts : ℚ
  flex_kw_per_account : ℚ
  peak_hours : List ℕ
  baseline_acceptance_rate : ℚ
  min_notice_hours : ℚ
  deriving DecidableEq

/-- The situation dict returned by `_analyze_situation`. -/
structure Situation where
  current_load_mw : ℚ
  current_price : ℚ
  reserves_mw : ℚ
  forecast_peak_mw : ℚ
  forecast_peak_hour : ℕ
  window_overlaps_peak : Bool
  stress_level : String
  deriving DecidableEq

/-- Python `round(x, 2)`: round `100 * x` to the nearest integer and scale
back.  (Python rounds half-to-even on the underlying float; the two
conventions agree up to the half-ulp bound `1/200` used below.) -/
def round2 (x : ℚ) : ℚ := ((round (x * 100) : ℤ) : ℚ) / 100

/-- Python `round(x, 3)`. -/
def round3 (x : ℚ) : ℚ := ((round (x * 1000) : ℤ) : ℚ) / 1000

/-- `_calculate_stress_level`: ordered cascade over reserves and load, with
the documented fallback defaults for missing fields. -/
def calculateStressLevel (snapshot : GridSnapshot) (forecast : GridForecast) : String :=
  let load := snapshot.system_load_mw.getD 65000
  let reserves := snapshot.reserves_mw.getD 15000
  if reserves < 5000 ∨ load > 75000 then "critical"
  else if reserves < 10000 ∨ load > 70000 then "high"
  else if reserves < 15000 ∨ load > 65000 then "moderate"
  else "low"

/-- `_analyze_situation`: builds the situation dict.  On the error record the
source evaluates `ercot_data["snapshot"]`, which raises `KeyError`
(`'snapshot'` is not a key of the error dict). -/
def analyzeSituation (ercotData : ErcotData) (windowStartHour windowEndHour : ℕ) :
    Except String Situation :=
  match ercotData with
  | .error _ _ => .error "KeyError: snapshot"
  | .ok snapshot forecast =>
      let peakHour := forecast.peak_hour.getD 17
      .ok
        { current_load_mw := snapshot.system_load_mw.getD 65000
          current_price := snapshot.price_per_mwh.getD 45
          reserves_mw := snapshot.reserves_mw.getD 15000
          forecast_peak_mw := forecast.peak_load_mw.getD 72000
          forecast_peak_hour := peakHour
          window_overlaps_peak :=
            decide (windowStartHour ≤ peakHour ∧ peakHour ≤ windowEndHour)
          stress_level := calculateStressLevel snapshot forecast }

/-- `_calculate_target_mw`: strategy-dependent target derivation with the
hardcoded 50 MW base (`2.5 = 5/2`, `1.5 = 3/2`, exact in binary floats). -/
def calculateTargetMw (situation : Situation) (strategy : DRStrategy) : ℚ :=
  let baseTarget : ℚ := 50
  match strategy with
  | .emergency => baseTarget * 3
  | .reliability =>
      if situation.stress_level = "critical" then baseTarget * (5/2)
      else if situation.stress_level = "high" then baseTarget * 2
      else baseTarget * (3/2)
  | .cost_minimize =>
      if situation.current_price > 100 then baseTarget * 2
      else if situation.current_price > 50 then baseTarget * (3/2)
      else baseTarget
  | .balanced => baseTarget * (3/2)

/-- Python substring containment (`pat in s`). -/
def strContains (s pat : String) : Bool :=
  s.toList.tails.any (fun t => pat.toList.isPrefixOf t)

/-- `list(range(window_start.hour, window_end.hour + 1))`. -/
def windowHours (windowStartHour windowEndHour : ℕ) : List ℕ :=
  List.range' windowStartHour (windowEndHour + 1 - windowStartHour)

/-- One entry of the list built by `_score_cohorts`: the cohort, its score,
the factors dict (`peak_alignment`, `acceptance`, `flex_mw`) and the
estimated available MW. -/
structure ScoredCohort where
  cohort : Cohort
  score : ℚ
  peak_alignment : ℚ
  acceptance : ℚ
  flex_mw : ℚ
  available_mw : ℚ
  deriving DecidableEq

/-- The body of the `for cohort in cohorts` loop of `_score_cohorts` for one
cohort that passed the notice-time check.  `window_hours` is
`range(start.hour, end.hour + 1)`, which has no duplicate elements, so the
`len(set(window_hours) & set(peak_hours))` intersection size is the number of
window hours that occur among the cohort's peak hours. -/
def scoreOne (windowStartHour windowEndHour : ℕ) (strategy : DRStrategy)
    (c : Cohort) : ScoredCohort :=
  let wh := windowHours windowStartHour windowEndHour
  let peakOverlap : ℕ := (wh.filter (fun h => c.peak_hours.contains h)).length
  let peakAlignment : ℚ := if wh = [] then 0 else (peakOverlap : ℚ) / (wh.length : ℚ)
  let acceptance := c.baseline_acceptance_rate
  let flexMw := c.num_accounts * c.flex_kw_per_account / 1000
  let baseScore := peakAlignment * 30 + acceptance * 25 + min (flexMw / 10) 20
  let bonus : ℚ :=
    match strategy with
    | .cost_minimize =>
        if strContains c.segment "commercial" || strContains c.segment "industrial"
        then 15 else 0
    | .reliability => acceptance * 15
    | .emergency => if c.min_notice_hours ≤ 1 then 20 else 0
    | .balanced => 0
  { cohort := c
    score := baseScore + bonus
    peak_alignment := peakAlignment
    acceptance := acceptance
    flex_mw := flexMw
    available_mw := flexMw * peakAlignment * acceptance }

/-- `_score_cohorts` before the final sort: cohorts whose notice time
`(window_start - now).total_seconds() / 3600` is below their
`min_notice_hours` are skipped (`continue`), the rest are scored in input
order. -/
def scoreCohortsRaw (cohorts : List Cohort) (nowSec windowStartSec : ℚ)
    (windowStartHour windowEndHour : ℕ) (strategy : DRStrategy) : List ScoredCohort :=
  let hoursNotice := (windowStartSec - nowSec) / 3600
  (cohorts.filter (fun c => !(decide (hoursNotice < c.min_notice_hours)))).map
    (scoreOne windowStartHour windowEndHour strategy)

/-- Insert `x` into a descending-sorted list after every element whose score
is at least `x.score` (so equal scores keep their existing order). -/
def insertDesc (x : ScoredCohort) : List ScoredCohort → List ScoredCohort
  | [] => [x]
  | y :: ys => if x.score ≤ y.score then y :: insertDesc x ys else x :: y :: ys

/-- Stable descending-by-score sort, modelling Python's stable
`scored.sort(key=lambda x: x["score"], reverse=True)`. -/
def sortByScoreDesc (l : List ScoredCohort) : List ScoredCohort :=
  l.foldl (fun acc x => insertDesc x acc) []

/-- `_score_cohorts`: score the eligible cohorts, then sort by score
descending (stable).  The situation dict is accepted but, as in the source,
not read. -/
def scoreCohorts (cohorts : List Cohort) (nowSec windowStartSec : ℚ)
    (windowStartHour windowEndHour : ℕ) (strategy : DRStrategy)
    (situation : Situation) : List ScoredCohort :=
  sortByScoreDesc
    (scoreCohortsRaw cohorts nowSec windowStartSec windowStartHour windowEndHour strategy)

/-- One allocation record built by `_allocate_mw` (the generated
`message_template` string is the only field not carried over; no claim
concerns it). -/
structure CohortAllocation where
  cohort_id : String
  cohort_name : String
  target_mw : ℚ
  predicted_mw : ℚ
  acceptance_probability : ℚ
  num_accounts : ℚ
  deriving DecidableEq

/-- The MW amount `_allocate_mw` assigns to one scored cohort, given the
running total: `allocate = min(available, target - allocated)`, further
capped at 30% of the target under the balanced strategy (`0.3` written as
`3/10`). -/
def allocAmount (strategy : DRStrategy) (target allocated : ℚ)
    (sc : ScoredCohort) : ℚ :=
  let needed := target - allocated
  let a := min sc.available_mw needed
  if strategy = .balanced then min a (target * (3/10)) else a

/-- The allocation record appended for a scored cohort receiving `allocate`
MW. -/
def allocEntry (sc : ScoredCohort) (allocate : ℚ) : CohortAllocation :=
  { cohort_id := sc.cohort.id
    cohort_name := sc.cohort.name
    target_mw := round2 allocate
    predicted_mw := round2 (allocate * sc.cohort.baseline_acceptance_rate)
    acceptance_probability :=
      round3 (sc.cohort.baseline_acceptance_rate * sc.peak_alignment)
    num_accounts := sc.cohort.num_accounts }

/-- The `for sc in scored_cohorts` loop of `_allocate_mw`, with the running
total `allocated_mw` made explicit; the loop breaks as soon as
`allocated_mw >= target_mw`. -/
def allocateAux (strategy : DRStrategy) (target : ℚ) :
    List ScoredCohort → ℚ → List CohortAllocation
  | [], _ => []
  | sc :: rest, allocated =>
      if target ≤ allocated then []
      else
        let a := allocAmount strategy target allocated sc
        allocEntry sc a :: allocateAux strategy target rest (allocated + a)

/-- `_allocate_mw`: greedy allocation starting from `allocated_mw = 0`. -/
def allocateMw (scoredCohorts : List ScoredCohort) (target_mw : ℚ)
    (strategy : DRStrategy) : List CohortAllocation :=
  allocateAux strategy target_mw scoredCohorts 0

/-- `_calculate_confidence`: 0.0 on an empty allocation list, else base 0.7
adjusted for stress, blended 0.7/0.3 with the mean acceptance probability,
clamped to [0,1] and rounded to 3 decimals. -/
def calculateConfidence (allocations : List CohortAllocation)
    (situation : Situation) : ℚ :=
  if allocations = [] then 0
  else
    let confidenceBase : ℚ := 7/10
    let confidenceAdj :=
      if situation.stress_level = "low" then confidenceBase + 1/10
      else if situation.stress_level = "critical" then confidenceBase - 1/10
      else confidenceBase
    let avgAcceptance :=
      (allocations.map (fun a => a.acceptance_probability)).sum
        / (allocations.length : ℚ)
    round3 (min (max (confidenceAdj * (7/10) + avgAcceptance * (3/10)) 0) 1)

/-- The Confidence Estimator written independently from the spec's words
(§4.4): base confidence 0.70; +0.10 if stress is low; −0.10 if stress is
critical; blend with the mean acceptance probability with weights 0.7/0.3;
clamp to [0,1]; round to 3 decimals; exactly 0.0 for zero allocations. -/
def confidenceSpec (allocations : List CohortAllocation)
    (situation : Situation) : ℚ :=
  if allocations = [] then 0
  else
    let base : ℚ := 7/10
    let adjusted :=
      base + (if situation.stress_level = "low" then 1/10 else 0)
        - (if situation.stress_level = "critical" then 1/10 else 0)
    let meanAcceptance :=
      (allocations.map (fun a => a.acceptance_probability)).sum
        / (allocations.length : ℚ)
    round3 (min 1 (max 0 (adjusted * (7/10) + meanAcceptance * (3/10))))

/-- The plan dict assembled by `create_plan`, restricted to the
deterministically computed fields (the id and `created_at` timestamp come
from the wall clock, and `constraints_applied` / `explanation` are derived
strings no claim concerns). -/
structure DRPlan where
  strategy : DRStrategy
  status : String
  target_mw_total : ℚ
  predicted_mw_total : ℚ
  cohort_allocations : List CohortAllocation
  confidence_score : ℚ
  situation_summary : Situation
  deriving DecidableEq

/-- `create_plan`: filter cohorts to the selection (Python's
`if selected_cohorts:` is false for `None` and for an empty list), analyze
the situation, derive the target when none is supplied (Python's
`if not target_mw:` also treats an explicit `0.0` as unsupplied), score,
allocate and estimate confidence.  An exception escaping
`_analyze_situation` propagates out of `create_plan`. -/
def createPlan (ercotData : ErcotData) (cohorts : List Cohort)
    (nowSec windowStartSec : ℚ) (windowStartHour windowEndHour : ℕ)
    (strategy : DRStrategy) (target_mw : Option ℚ)
    (selectedCohorts : Option (List String)) : Except String DRPlan :=
  let cohortsSel :=
    match selectedCohorts with
    | some ids => if ids = [] then cohorts else cohorts.filter (fun c => ids.contains c.id)
    | none => cohorts
  match analyzeSituation ercotData windowStartHour windowEndHour with
  | .error e => .error e
  | .ok situation =>
      let target :=
        match target_mw with
        | some t => if t = 0 then calculateTargetMw situation strategy else t
        | none => calculateTargetMw situation strategy
      let scored :=
        scoreCohorts cohortsSel nowSec windowStartSec windowStartHour windowEndHour
          strategy situation
      let allocations := allocateMw scored target strategy
      .ok
        { strategy := strategy
          status := "proposed"
          target_mw_total := target
          predicted_mw_total := (allocations.map (fun a => a.predicted_mw)).sum
          cohort_allocations := allocations
          confidence_score := calculateConfidence allocations situation
          situation_summary := situation }

/-- Severity rank of a stress-level string, for stating monotonicity:
low < moderate < high < critical. -/
def severity (s : String) : ℕ :=
  if s = "critical" then 3
  else if s = "high" then 2
  else if s = "moderate" then 1
  else 0

/-! ### Concrete inputs used by witnesses -/

/-- A concrete cohort: 1000 EV accounts at 2 kW flexibility, acceptance rate
1/2, peak hours 17–19, one hour minimum notice. -/
def cEv : Cohort :=
  { id := "c1"
    name := "EV owners"
    segment := "residential_ev"
    num_accounts := 1000
    flex_kw_per_account := 2
    peak_hours := [17, 18, 19]
    baseline_acceptance_rate := 1/2
    min_notice_hours := 1 }

/-- A concrete scored cohort built over `cEv` with full peak alignment. -/
def scEv : ScoredCohort :=
  { cohort := cEv
    score := 60
    peak_alignment := 1
    acceptance := 1/2
    flex_mw := 2
    available_mw := 1 }

/-- A concrete allocation record with acceptance probability 1/2. -/
def caEv : CohortAllocation :=
  { cohort_id := "c1"
    cohort_name := "EV owners"
    target_mw := 1
    predicted_mw := 1/2
    acceptance_probability := 1/2
    num_accounts := 1000 }

/-- The snapshot of the spec's end-to-end scenario:
load 72000, price 60, reserves 6000. -/
def snapT : GridSnapshot :=
  { system_load_mw := some 72000
    price_per_mwh := some 60
    reserves_mw := some 6000 }

/-- The forecast of the spec's end-to-end scenario: peak 76000 at hour 18. -/
def fcT : GridForecast :=
  { peak_load_mw := some 76000
    peak_hour := some 18 }

/-- The situation `_analyze_situation` produces from `snapT`/`fcT` and a
17:00–19:00 window. -/
def sitT : Situation :=
  { current_load_mw := 72000
    current_price := 60
    reserves_mw := 6000
    forecast_peak_mw := 76000
    forecast_peak_hour := 18
    window_overlaps_peak := true
    stress_level := "high" }

/-! ### Helper lemmas -/

lemma round_cast_le_add_half (x : ℚ) : ((round x : ℤ) : ℚ) ≤ x + 1/2 := by
  rw [round_eq]
  exact Int.floor_le _

lemma round_mono_q {x y : ℚ} (h : x ≤ y) : round x ≤ round y := by
  rw [round_eq, round_eq]
  exact Int.floor_mono (by linarith)

lemma round2_le (x : ℚ) : round2 x ≤ x + 1/200 := by
  have h := round_cast_le_add_half (x * 100)
  unfold round2
  linarith

lemma round2_mono {x y : ℚ} (h : x ≤ y) : round2 x ≤ round2 y := by
  unfold round2
  have h1 : round (x * 100) ≤ round (y * 100) := round_mono_q (by linarith)
  have h2 : ((round (x * 100) : ℤ) : ℚ) ≤ ((round (y * 100) : ℤ) : ℚ) :=
    Int.cast_le.mpr h1
  linarith

lemma round2_zero : round2 0 = 0 := by
  simp [round2]

lemma round3_mono {x y : ℚ} (h : x ≤ y) : round3 x ≤ round3 y := by
  unfold round3
  have h1 : round (x * 1000) ≤ round (y * 1000) := round_mono_q (by linarith)
  have h2 : ((round (x * 1000) : ℤ) : ℚ) ≤ ((round (y * 1000) : ℤ) : ℚ) :=
    Int.cast_le.mpr h1
  linarith

lemma round3_zero : round3 0 = 0 := by
  simp [round3]

lemma round3_one : round3 1 = 1 := by
  norm_num [round3, round_eq]

lemma allocAmount_le_needed (strategy : DRStrategy) (target allocated : ℚ)
    (sc : ScoredCohort) :
    allocAmount strategy target allocated sc ≤ target - allocated := by
  simp only [allocAmount]
  split_ifs
  · exact (min_le_left _ _).trans (min_le_right _ _)
  · exact min_le_right _ _

lemma allocAmount_nonneg (strategy : DRStrategy) (target allocated : ℚ)
    (sc : ScoredCohort) (h0 : 0 ≤ allocated) (h1 : allocated < target)
    (ha : 0 ≤ sc.available_mw) :
    0 ≤ allocAmount strategy target allocated sc := by
  have htpos : 0 < target := lt_of_le_of_lt h0 h1
  simp only [allocAmount]
  split_ifs
  · exact le_min (le_min ha (by linarith)) (mul_nonneg htpos.le (by norm_num))
  · exact le_min ha (by linarith)

lemma allocAmount_balanced_le_cap (target allocated : ℚ) (sc : ScoredCohort) :
    allocAmount .balanced target allocated sc ≤ target * (3/10) := by
  simp only [allocAmount, if_pos rfl]
  exact min_le_right _ _

lemma mem_insertDesc {x y : ScoredCohort} {l : List ScoredCohort} :
    y ∈ insertDesc x l ↔ y = x ∨ y ∈ l := by
  induction l with
  | nil => simp [insertDesc]
  | cons z zs ih =>
      simp only [insertDesc]
      split_ifs <;> simp only [List.mem_cons, ih] <;> tauto

lemma mem_foldl_insertDesc {y : ScoredCohort} :
    ∀ (l acc : List ScoredCohort),
      y ∈ l.foldl (fun acc x => insertDesc x acc) acc ↔ y ∈ acc ∨ y ∈ l := by
  intro l
  induction l with
  | nil => simp
  | cons x xs ih =>
      intro acc
      simp only [List.foldl_cons, ih, mem_insertDesc, List.mem_cons]
      tauto

lemma mem_sortByScoreDesc {y : ScoredCohort} {l : List ScoredCohort} :
    y ∈ sortByScoreDesc l ↔ y ∈ l := by
  unfold sortByScoreDesc
  rw [mem_foldl_insertDesc]
  simp

lemma allocateAux_sum_le (strategy : DRStrategy) (target : ℚ)
    (scored : List ScoredCohort) :
    ∀ allocated : ℚ, allocated ≤ target →
      ((allocateAux strategy target scored allocated).map (fun a => a.target_mw)).sum
        ≤ (target - allocated)
          + ((allocateAux strategy target scored allocated).length : ℚ) * (1/200) := by
  induction scored with
  | nil =>
      intro allocated h
      simp only [allocateAux, List.map_nil, List.sum_nil, List.length_nil]
      push_cast
      linarith
  | cons sc rest ih =>
      intro allocated h
      by_cases hbreak : target ≤ allocated
      · simp only [allocateAux, if_pos hbreak, List.map_nil, List.sum_nil,
          List.length_nil]
        push_cast
        linarith
      · have hlt : allocated < target := lt_of_not_le hbreak
        have hle := allocAmount_le_needed strategy target allocated sc
        have hih := ih (allocated + allocAmount strategy target allocated sc)
          (by linarith)
        have hr := round2_le (allocAmount strategy target allocated sc)
        simp only [allocateAux, if_neg hbreak, List.map_cons, List.sum_cons,
          List.length_cons] at hih ⊢
        have hentry : (allocEntry sc (allocAmount strategy target allocated sc)).target_mw
            = round2 (allocAmount strategy target allocated sc) := rfl
        rw [hentry]
        push_cast at hih ⊢
        linarith

/-- C2: for every scored-cohort list, every total target MW ≥ 0 and every
strategy, the sum of `target_mw` over the allocations returned by
`_allocate_mw` never exceeds the plan's `target_mw_total` by more than the
rounding error introduced by rounding each allocation to 2 decimals (at most
`1/200` per allocation). -/
theorem allocateMw_sum_target_le (scoredCohorts : List ScoredCohort)
    (target_mw : ℚ) (strategy : DRStrategy) (htarget : 0 ≤ target_mw) :
    ((allocateMw scoredCohorts target_mw strategy).map (fun a => a.target_mw)).sum
      ≤ target_mw
        + ((allocateMw scoredCohorts target_mw strategy).length : ℚ) * (1/200) := by
  have h := allocateAux_sum_le strategy target_mw scoredCohorts 0 htarget
  simpa [allocateMw] using h

/-- Witness for C2 at a concrete input. -/
theorem allocateMw_sum_target_le_witness :
    (0:ℚ) ≤ 100
    ∧ ((allocateMw [scEv] 100 .balanced).map (fun a => a.target_mw)).sum
        ≤ 100 + ((allocateMw [scEv] 100 .balanced).length : ℚ) * (1/200) :=
  ⟨by norm_num, allocateMw_sum_target_le [scEv] 100 .balanced (by norm_num)⟩

lemma allocateAux_predicted_le (strategy : DRStrategy) (target : ℚ)
    (scored : List ScoredCohort)
    (hsc : ∀ sc ∈ scored, 0 ≤ sc.available_mw
      ∧ 0 ≤ sc.cohort.baseline_acceptance_rate
      ∧ sc.cohort.baseline_acceptance_rate ≤ 1) :
    ∀ allocated : ℚ, 0 ≤ allocated →
      ∀ a ∈ allocateAux strategy target scored allocated,
        a.predicted_mw ≤ a.target_mw := by
  induction scored with
  | nil =>
      intro allocated _ a ha
      simp [allocateAux] at ha
  | cons sc rest ih =>
      intro allocated h0 a ha
      by_cases hbreak : target ≤ allocated
      · simp [allocateAux, if_pos hbreak] at ha
      · have hlt : allocated < target := lt_of_not_le hbreak
        obtain ⟨hav, hr0, hr1⟩ := hsc sc (List.mem_cons_self sc rest)
        have hnn := allocAmount_nonneg strategy target allocated sc h0 hlt hav
        simp only [allocateAux, if_neg hbreak, List.mem_cons] at ha
        rcases ha with rfl | ha
        · have hmul : allocAmount strategy target allocated sc
                * sc.cohort.baseline_acceptance_rate
              ≤ allocAmount strategy target allocated sc :=
            mul_le_of_le_one_right hnn hr1
          exact round2_mono hmul
        · exact ih (fun x hx => hsc x (List.mem_cons_of_mem sc hx))
            (allocated + allocAmount strategy target allocated sc)
            (by linarith) a ha

/-- C3: every allocation produced by `_allocate_mw` from scored cohorts with
nonnegative estimated available MW and a baseline acceptance rate in [0,1]
has `predicted_mw ≤ target_mw` (both rounded to 2 decimals, since
`predicted = allocate × acceptance_rate ≤ allocate`). -/
theorem allocateMw_predicted_le_target (scoredCohorts : List ScoredCohort)
    (target_mw : ℚ) (strategy : DRStrategy)
    (hsc : ∀ sc ∈ scoredCohorts, 0 ≤ sc.available_mw
      ∧ 0 ≤ sc.cohort.baseline_acceptance_rate
      ∧ sc.cohort.baseline_acceptance_rate ≤ 1) :
    ∀ a ∈ allocateMw scoredCohorts target_mw strategy,
      a.predicted_mw ≤ a.target_mw := by
  intro a ha
  exact allocateAux_predicted_le strategy target_mw scoredCohorts hsc 0 le_rfl a ha

/-- Witness for C3 at a concrete input. -/
theorem allocateMw_predicted_le_target_witness :
    (allocEntry scEv 1).predicted_mw ≤ (allocEntry scEv 1).target_mw := by
  have hmem : allocEntry scEv 1 ∈ allocateMw [scEv] 100 .reliability := by
    have h1 : allocAmount .reliability 100 0 scEv = 1 := by
      simp [allocAmount, scEv]
    simp [allocateMw, allocateAux, h1]
  exact allocateMw_predicted_le_target [scEv] 100 .reliability
    (by
      intro sc hsc
      simp only [List.mem_singleton] at hsc
      subst hsc
      refine ⟨by norm_num [scEv], by norm_num [scEv, cEv], by norm_num [scEv, cEv]⟩)
    (allocEntry scEv 1) hmem

lemma allocateAux_balanced_cap (target : ℚ) (scored : List ScoredCohort) :
    ∀ allocated : ℚ, ∀ a ∈ allocateAux .balanced target scored allocated,
      a.target_mw ≤ target * (3/10) + 1/200 := by
  induction scored with
  | nil =>
      intro allocated a ha
      simp [allocateAux] at ha
  | cons sc rest ih =>
      intro allocated a ha
      by_cases hbreak : target ≤ allocated
      · simp [allocateAux, if_pos hbreak] at ha
      · simp only [allocateAux, if_neg hbreak, List.mem_cons] at ha
        rcases ha with rfl | ha
        · have hcap := allocAmount_balanced_le_cap target allocated sc
          have hr := round2_le (allocAmount .balanced target allocated sc)
          have hentry : (allocEntry sc (allocAmount .balanced target allocated sc)).target_mw
              = round2 (allocAmount .balanced target allocated sc) := rfl
          rw [hentry]
          linarith
        · exact ih (allocated + allocAmount .balanced target allocated sc) a ha

/-- C7: under the balanced strategy no single allocation's `target_mw`
exceeds 30% of the total target MW, up to the 2-decimal rounding of the
stored value (at most `1/200`). -/
theorem allocateMw_balanced_cap (scoredCohorts : List ScoredCohort)
    (target_mw : ℚ) :
    ∀ a ∈ allocateMw scoredCohorts target_mw .balanced,
      a.target_mw ≤ target_mw * (3/10) + 1/200 := by
  intro a ha
  exact allocateAux_balanced_cap target_mw scoredCohorts 0 a ha

/-- Witness for C7 at a concrete input: with 100 MW available and a 100 MW
target, the balanced cap limits the single allocation to 30 MW. -/
theorem allocateMw_balanced_cap_witness :
    (allocEntry { scEv with available_mw := 100 } 30).target_mw
      ≤ 100 * (3/10) + 1/200 := by
  have hmem : allocEntry { scEv with available_mw := 100 } 30
      ∈ allocateMw [{ scEv with available_mw := 100 }] 100 .balanced := by
    have h1 : allocAmount .balanced 100 0 { scEv with available_mw := 100 } = 30 := by
      simp [allocAmount, scEv]
      norm_num
    simp [allocateMw, allocateAux, h1]
  exact allocateMw_balanced_cap [{ scEv with available_mw := 100 }] 100
    (allocEntry { scEv with available_mw := 100 } 30) hmem

/-- C10: a scored cohort with `available_mw = 0` reached while the running
allocated total is still below the target receives an allocation entry with
`target_mw = 0` and `predicted_mw = 0`, and the loop proceeds with the total
unchanged — so the returned list can contain zero-MW entries and be longer
than the set of cohorts contributing any MW. -/
theorem allocateAux_zero_available (strategy : DRStrategy)
    (sc : ScoredCohort) (rest : List ScoredCohort) (target allocated : ℚ)
    (h0 : 0 ≤ allocated) (h1 : allocated < target) (h2 : sc.available_mw = 0) :
    allocateAux strategy target (sc :: rest) allocated
      = allocEntry sc 0 :: allocateAux strategy target rest allocated
    ∧ (allocEntry sc 0).target_mw = 0 ∧ (allocEntry sc 0).predicted_mw = 0 := by
  have htpos : 0 < target := lt_of_le_of_lt h0 h1
  have hzero : allocAmount strategy target allocated sc = 0 := by
    simp only [allocAmount, h2]
    split_ifs
    · rw [min_eq_left (show (0:ℚ) ≤ target - allocated by linarith)]
      exact min_eq_left (mul_nonneg htpos.le (by norm_num))
    · exact min_eq_left (by linarith)
  refine ⟨?_, ?_, ?_⟩
  · simp only [allocateAux, if_neg (not_le.mpr h1), hzero, add_zero]
  · show round2 0 = 0
    exact round2_zero
  · show round2 (0 * sc.cohort.baseline_acceptance_rate) = 0
    rw [zero_mul]
    exact round2_zero

/-- Witness for C10 at a concrete input. -/
theorem allocateAux_zero_available_witness :
    allocateAux .reliability 100 [{ scEv with available_mw := 0 }, scEv] 0
      = allocEntry { scEv with available_mw := 0 } 0
        :: allocateAux .reliability 100 [scEv] 0
    ∧ (allocEntry { scEv with available_mw := 0 } 0).target_mw = 0
    ∧ (allocEntry { scEv with available_mw := 0 } 0).predicted_mw = 0 :=
  allocateAux_zero_available .reliability { scEv with available_mw := 0 } [scEv]
    100 0 le_rfl (by norm_num) rfl

lemma calculateConfidence_eq_confidenceSpec (allocations : List CohortAllocation)
    (situation : Situation) :
    calculateConfidence allocations situation = confidenceSpec allocations situation := by
  by_cases he : allocations = []
  · simp [calculateConfidence, confidenceSpec, he]
  · simp only [calculateConfidence, confidenceSpec, if_neg he]
    by_cases hlow : situation.stress_level = "low"
    · have hcrit : ¬ situation.stress_level = "critical" := by simp [hlow]
      rw [if_pos hlow, if_pos hlow, if_neg hcrit]
      simp only [min_comm, max_comm]
      ring_nf
    · by_cases hcrit : situation.stress_level = "critical"
      · rw [if_neg hlow, if_pos hcrit, if_neg hlow, if_pos hcrit]
        simp only [min_comm, max_comm]
        ring_nf
      · rw [if_neg hlow, if_neg hcrit, if_neg hlow, if_neg hcrit]
        simp only [min_comm, max_comm]
        ring_nf

lemma round3_clamp_bounds (x : ℚ) :
    0 ≤ round3 (min (max x 0) 1) ∧ round3 (min (max x 0) 1) ≤ 1 := by
  have h0 : (0:ℚ) ≤ min (max x 0) 1 := le_min (le_max_right _ _) zero_le_one
  have h1 : min (max x 0) 1 ≤ 1 := min_le_right _ _
  constructor
  · have := round3_mono h0
    rwa [round3_zero] at this
  · have := round3_mono h1
    rwa [round3_one] at this

lemma round3_clamp_lower {adj avg : ℚ} (hadj : 3/5 ≤ adj) (havg : 0 ≤ avg) :
    (21/50 : ℚ) ≤ round3 (min (max (adj * (7/10) + avg * (3/10)) 0) 1) := by
  have hx : (21/50:ℚ) ≤ adj * (7/10) + avg * (3/10) := by nlinarith
  have hy : (21/50:ℚ) ≤ min (max (adj * (7/10) + avg * (3/10)) 0) 1 :=
    le_min (hx.trans (le_max_left _ _)) (by norm_num)
  have h42 : round3 (21/50) = 21/50 := by norm_num [round3, round_eq]
  calc (21/50 : ℚ) = round3 (21/50) := h42.symm
  _ ≤ _ := round3_mono hy

lemma calculateConfidence_lower (allocations : List CohortAllocation)
    (situation : Situation)
    (h : ∀ a ∈ allocations, 0 ≤ a.acceptance_probability
      ∧ a.acceptance_probability ≤ 1)
    (he : allocations ≠ []) :
    (21/50 : ℚ) ≤ calculateConfidence allocations situation := by
  have havg : 0 ≤ (allocations.map (fun a => a.acceptance_probability)).sum
      / (allocations.length : ℚ) := by
    apply div_nonneg
    · apply List.sum_nonneg
      intro x hx
      obtain ⟨a, ha, rfl⟩ := List.mem_map.mp hx
      exact (h a ha).1
    · exact Nat.cast_nonneg _
  have hadj : (3/5 : ℚ) ≤
      (if situation.stress_level = "low" then (7:ℚ)/10 + 1/10
        else if situation.stress_level = "critical" then (7:ℚ)/10 - 1/10
        else (7:ℚ)/10) := by
    split_ifs <;> norm_num
  simp only [calculateConfidence, if_neg he]
  exact round3_clamp_lower hadj havg

/-- C4: the plan confidence is always in [0,1]; it is exactly 0 iff the
allocation list is empty (given each stored acceptance probability lies in
[0,1]); and `_calculate_confidence` computes exactly the spec's formula
(`confidenceSpec`): base 0.70, +0.10 for low stress, −0.10 for critical
stress, blended 0.7/0.3 with the mean acceptance probability, clamped to
[0,1] and rounded to 3 decimals. -/
theorem calculateConfidence_range_zero_iff (allocations : List CohortAllocation)
    (situation : Situation)
    (h : ∀ a ∈ allocations, 0 ≤ a.acceptance_probability
      ∧ a.acceptance_probability ≤ 1) :
    (0 ≤ calculateConfidence allocations situation
      ∧ calculateConfidence allocations situation ≤ 1)
    ∧ (calculateConfidence allocations situation = 0 ↔ allocations = [])
    ∧ calculateConfidence allocations situation
        = confidenceSpec allocations situation := by
  refine ⟨?_, ?_, calculateConfidence_eq_confidenceSpec allocations situation⟩
  · by_cases he : allocations = []
    · simp [calculateConfidence, he]
    · simp only [calculateConfidence, if_neg he]
      exact round3_clamp_bounds _
  · constructor
    · intro hc
      by_contra he
      have := calculateConfidence_lower allocations situation h he
      rw [hc] at this
      norm_num at this
    · intro he
      simp [calculateConfidence, he]

/-- Witness for C4 at a concrete input. -/
theorem calculateConfidence_range_zero_iff_witness :
    (0 ≤ calculateConfidence [caEv] sitT
      ∧ calculateConfidence [caEv] sitT ≤ 1)
    ∧ (calculateConfidence [caEv] sitT = 0 ↔ [caEv] = ([] : List CohortAllocation))
    ∧ calculateConfidence [caEv] sitT = confidenceSpec [caEv] sitT :=
  calculateConfidence_range_zero_iff [caEv] sitT
    (by
      intro a ha
      simp only [List.mem_singleton] at ha
      subst ha
      exact ⟨by norm_num [caEv], by norm_num [caEv]⟩)

lemma mem_scoreCohortsRaw {sc : ScoredCohort} {cohorts : List Cohort}
    {nowSec windowStartSec : ℚ} {windowStartHour windowEndHour : ℕ}
    {strategy : DRStrategy}
    (h : sc ∈ scoreCohortsRaw cohorts nowSec windowStartSec windowStartHour
      windowEndHour strategy) :
    ∃ c ∈ cohorts,
      sc = scoreOne windowStartHour windowEndHour strategy c
      ∧ ¬ ((windowStartSec - nowSec) / 3600 < c.min_notice_hours) := by
  simp only [scoreCohortsRaw, List.mem_map, List.mem_filter] at h
  obtain ⟨c, ⟨hmem, hpred⟩, heq⟩ := h
  refine ⟨c, hmem, heq.symm, ?_⟩
  simpa using hpred

lemma scoreOne_cohort (windowStartHour windowEndHour : ℕ)
    (strategy : DRStrategy) (c : Cohort) :
    (scoreOne windowStartHour windowEndHour strategy c).cohort = c := rfl

/-- C5: a cohort whose notice time — the number of hours between "now" and
`window_start` — is less than its `min_notice_hours` never appears in the
scored-cohort list returned by `_score_cohorts`: every scored entry's cohort
satisfies the notice-time requirement (a hard exclusion, not a score
penalty). -/
theorem scoreCohorts_notice_filter (cohorts : List Cohort)
    (nowSec windowStartSec : ℚ) (windowStartHour windowEndHour : ℕ)
    (strategy : DRStrategy) (situation : Situation) :
    ∀ sc ∈ scoreCohorts cohorts nowSec windowStartSec windowStartHour
        windowEndHour strategy situation,
      ¬ ((windowStartSec - nowSec) / 3600 < sc.cohort.min_notice_hours) := by
  intro sc hsc
  rw [scoreCohorts, mem_sortByScoreDesc] at hsc
  obtain ⟨c, _, rfl, hnotice⟩ := mem_scoreCohortsRaw hsc
  rwa [scoreOne_cohort]

/-- Witness for C5: with a 2-hour notice window, the 1-hour-notice cohort
`cEv` is scored, and the theorem instantiates at it.  (A 48-hour-notice
cohort is filtered out before scoring, so it can never be the instantiation.) -/
theorem scoreCohorts_notice_filter_witness :
    ¬ ((7200 - 0 : ℚ) / 3600
        < (scoreOne 17 19 .balanced cEv).cohort.min_notice_hours) := by
  have hmem : scoreOne 17 19 .balanced cEv
      ∈ scoreCohorts [cEv] 0 7200 17 19 .balanced sitT := by
    have h2 : ((7200:ℚ) / 3600 < 1) = False := eq_false (by norm_num)
    simp [scoreCohorts, scoreCohortsRaw, sortByScoreDesc, insertDesc,
      List.filter, cEv, h2]
  exact scoreCohorts_notice_filter [cEv] 0 7200 17 19 .balanced sitT
    (scoreOne 17 19 .balanced cEv) hmem

/-- C6: with the hardcoded 50 MW base, the derived target is 150 for
emergency regardless of stress; 125 / 100 / 75 for reliability when stress is
critical / high / otherwise; 100 / 75 / 50 for cost_minimize when the price
is > 100 / > 50 / otherwise; and a flat 75 for balanced. -/
theorem calculateTargetMw_cases (situation : Situation) (strategy : DRStrategy) :
    calculateTargetMw situation strategy =
      match strategy with
      | .emergency => 150
      | .reliability =>
          if situation.stress_level = "critical" then 125
          else if situation.stress_level = "high" then 100
          else 75
      | .cost_minimize =>
          if situation.current_price > 100 then 100
          else if situation.current_price > 50 then 75
          else 50
      | .balanced => 75 := by
  cases strategy <;> simp only [calculateTargetMw] <;> (try split_ifs) <;> norm_num

lemma severity_calculateStressLevel (s : GridSnapshot) (f : GridForecast) :
    severity (calculateStressLevel s f) =
      if s.reserves_mw.getD 15000 < 5000 ∨ s.system_load_mw.getD 65000 > 75000 then 3
      else if s.reserves_mw.getD 15000 < 10000 ∨ s.system_load_mw.getD 65000 > 70000 then 2
      else if s.reserves_mw.getD 15000 < 15000 ∨ s.system_load_mw.getD 65000 > 65000 then 1
      else 0 := by
  simp only [calculateStressLevel]
  split_ifs <;> simp [severity]

lemma stressRank_mono (r1 l1 r2 l2 : ℚ) (hr : r2 ≤ r1) (hl : l1 ≤ l2) :
    (if r1 < 5000 ∨ l1 > 75000 then (3:ℕ)
      else if r1 < 10000 ∨ l1 > 70000 then 2
      else if r1 < 15000 ∨ l1 > 65000 then 1 else 0)
    ≤ (if r2 < 5000 ∨ l2 > 75000 then (3:ℕ)
      else if r2 < 10000 ∨ l2 > 70000 then 2
      else if r2 < 15000 ∨ l2 > 65000 then 1 else 0) := by
  have i1 : (r1 < 5000 ∨ l1 > 75000) → (r2 < 5000 ∨ l2 > 75000) := by
    rintro (h | h)
    exacts [Or.inl (lt_of_le_of_lt hr h), Or.inr (lt_of_lt_of_le h hl)]
  have i2 : (r1 < 10000 ∨ l1 > 70000) → (r2 < 10000 ∨ l2 > 70000) := by
    rintro (h | h)
    exacts [Or.inl (lt_of_le_of_lt hr h), Or.inr (lt_of_lt_of_le h hl)]
  have i3 : (r1 < 15000 ∨ l1 > 65000) → (r2 < 15000 ∨ l2 > 65000) := by
    rintro (h | h)
    exacts [Or.inl (lt_of_le_of_lt hr h), Or.inr (lt_of_lt_of_le h hl)]
  by_cases hb1 : r2 < 5000 ∨ l2 > 75000
  · rw [if_pos hb1]
    split_ifs <;> omega
  · have ha1 : ¬ (r1 < 5000 ∨ l1 > 75000) := fun h => hb1 (i1 h)
    rw [if_neg hb1, if_neg ha1]
    by_cases hb2 : r2 < 10000 ∨ l2 > 70000
    · rw [if_pos hb2]
      split_ifs <;> omega
    · have ha2 : ¬ (r1 < 10000 ∨ l1 > 70000) := fun h => hb2 (i2 h)
      rw [if_neg hb2, if_neg ha2]
      by_cases hb3 : r2 < 15000 ∨ l2 > 65000
      · rw [if_pos hb3]
        split_ifs <;> omega
      · have ha3 : ¬ (r1 < 15000 ∨ l1 > 65000) := fun h => hb3 (i3 h)
        rw [if_neg hb3, if_neg ha3]

/-- C8: the stress-level cascade is monotone: between two snapshots, if the
effective reserves decrease (or stay equal) and the effective load increases
(or stays equal), the computed stress severity (low < moderate < high <
critical) never decreases. -/
theorem calculateStressLevel_monotone (s1 s2 : GridSnapshot)
    (f1 f2 : GridForecast)
    (hres : s2.reserves_mw.getD 15000 ≤ s1.reserves_mw.getD 15000)
    (hload : s1.system_load_mw.getD 65000 ≤ s2.system_load_mw.getD 65000) :
    severity (calculateStressLevel s1 f1) ≤ severity (calculateStressLevel s2 f2) := by
  rw [severity_calculateStressLevel, severity_calculateStressLevel]
  exact stressRank_mono _ _ _ _ hres hload

/-- Witness for C8: degrading the scenario snapshot (reserves 6000 → 4000,
load 72000 → 76000) does not lower the severity. -/
theorem calculateStressLevel_monotone_witness :
    severity (calculateStressLevel snapT fcT)
      ≤ severity (calculateStressLevel
          { system_load_mw := some 76000, price_per_mwh := some 60,
            reserves_mw := some 4000 } fcT) :=
  calculateStressLevel_monotone snapT
    { system_load_mw := some 76000, price_per_mwh := some 60,
      reserves_mw := some 4000 } fcT fcT
    (by norm_num [snapT]) (by norm_num [snapT])

/-- C9: the analyzer's `window_overlaps_peak` field is true iff the forecast
peak hour (default 17) lies in the inclusive interval
`[window_start.hour, window_end.hour]`. -/
theorem analyzeSituation_window_overlaps_peak (snapshot : GridSnapshot)
    (forecast : GridForecast) (windowStartHour windowEndHour : ℕ)
    (sit : Situation)
    (h : analyzeSituation (.ok snapshot forecast) windowStartHour windowEndHour
      = Except.ok sit) :
    sit.window_overlaps_peak = true
      ↔ (windowStartHour ≤ forecast.peak_hour.getD 17
          ∧ forecast.peak_hour.getD 17 ≤ windowEndHour) := by
  simp only [analyzeSituation, Except.ok.injEq] at h
  subst h
  simp

/-- Witness for C9: the spec's scenario — peak hour 18, window 17:00–19:00 —
yields `window_overlaps_peak = true`. -/
theorem analyzeSituation_window_overlaps_peak_witness :
    sitT.window_overlaps_peak = true :=
  (analyzeSituation_window_overlaps_peak snapT fcT 17 19 sitT
      (by norm_num [analyzeSituation, snapT, fcT, sitT, calculateStressLevel])).mpr
    (by norm_num [fcT])

/-- C1 (refuted, code divergence): when the grid data loader reports its
error condition, `create_plan` does not propagate a distinguishable "no grid
data" outcome and does not fall back to a caller-supplied target — for every
choice of cohorts, clock, window, strategy, explicit target and cohort
selection, `_analyze_situation` indexes the error record with
`["snapshot"]` and the resulting `KeyError` escapes `create_plan`
unhandled. -/
theorem createPlan_error_raises_keyerror (message note : String)
    (cohorts : List Cohort) (nowSec windowStartSec : ℚ)
    (windowStartHour windowEndHour : ℕ) (strategy : DRStrategy)
    (target_mw : Option ℚ) (selectedCohorts : Option (List String)) :
    createPlan (ErcotData.error message note) cohorts nowSec windowStartSec
      windowStartHour windowEndHour strategy target_mw selectedCohorts
      = Except.error "KeyError: snapshot" := rfl

end DRPlanner
